import Mathlib

/-!
Shallow embedding of the Interactive-Story-Game session engine
(`src/app.py`) and of the Mistral generator adapter (`src/mistral_api.py`).

The Streamlit `st.session_state` fields used by the engine are collected in
`SessionState`; `st.session_state.story_data` (a Python dict with string
keys, insertion ordered) is modelled as an association list; Python list
indexing (including negative indices) is modelled by `pyGet?`; a Python
exception is modelled as `Except` whose error value carries the session
state at the moment the exception is raised.  The narrative generator
(`MistralAPI` instance or `None`) is an explicit parameter: a value of type
`Option ApiClient`, where an `ApiClient` may return an error (modelling an
adapter that raises).
-/

/-- Python exceptions that the embedded code can raise. -/
inductive PyErr where
  | keyError (k : String)
  | indexError
  | httpError (msg : String)
  | requestError (msg : String)
  | otherError (msg : String)
  deriving Repr, DecidableEq

/-- One entry of a scene's `options` list:
`{"text": ..., "next_scene": ...}` (`src/app.py:197`). -/
structure StoryOption where
  text : String
  next_scene : Option String
  deriving Repr, DecidableEq

/-- One value of the `story_data` dict:
`{"text": ..., "options": [...]}` (`src/app.py:194`). -/
structure Scene where
  text : String
  options : List StoryOption
  deriving Repr, DecidableEq

/-- One entry appended to `story_history` by `make_choice`
(`src/app.py:209`). -/
structure HistoryEntry where
  scene : String
  text : String
  choice : Int
  choice_text : String
  deriving Repr, DecidableEq

/-- The `st.session_state` fields owned by the engine
(`src/app.py:109`). -/
structure SessionState where
  story_data : List (String × Scene)
  current_scene : String
  player_name : String
  genre : String
  story_history : List HistoryEntry
  choice_count : Nat
  game_ended : Bool
  story_start_time : Option Nat
  deriving Repr, DecidableEq

/-- Python dict lookup `d[k]` (first matching key; `story_data` keys are
unique in every state the engine builds). -/
def dictGet? : List (String × Scene) → String → Option Scene
  | [], _ => none
  | kv :: rest, k => if kv.1 = k then some kv.2 else dictGet? rest k

/-- Python membership test `k in d`. -/
def dictContains (d : List (String × Scene)) (k : String) : Bool :=
  (dictGet? d k).isSome

/-- Python dict assignment `d[k] = v`: replace the value of an existing
key, otherwise append a new entry (dict preserves insertion order). -/
def dictSet : List (String × Scene) → String → Scene → List (String × Scene)
  | [], k, v => [(k, v)]
  | kv :: rest, k, v =>
      if kv.1 = k then (k, v) :: rest else kv :: dictSet rest k v

/-- Python list read `l[i]` with negative-index semantics: `none` means an
`IndexError` is raised. -/
def pyGet? (l : List StoryOption) (i : Int) : Option StoryOption :=
  if 0 ≤ i then l[i.toNat]?
  else if 0 ≤ (l.length : Int) + i then l[((l.length : Int) + i).toNat]?
  else none

/-- Python list element assignment `l[i] = v` (in the engine it is only
executed on an index that was already read successfully). -/
def pySet (l : List StoryOption) (i : Int) (v : StoryOption) : List StoryOption :=
  if 0 ≤ i then l.set i.toNat v
  else if 0 ≤ (l.length : Int) + i then l.set ((l.length : Int) + i).toNat v
  else l

/-- Engine-side fallback returned by `generate_story_content` when no API
client is available (`src/app.py:182`); the same string is also the
adapter's own catch-all fallback (`src/mistral_api.py:82`). -/
def storytellerPausesText : String :=
  "The storyteller pauses, gathering thoughts..."

/-- Engine-side fallback returned by `generate_story_content` when the API
client raised an exception (`src/app.py:180`). -/
def storyContinuesText : String :=
  "The story continues but the words are difficult to discern..."

/-- Behaviour of a generator client's `generate_story` method: arguments
are prompt, player name, genre, and the token budget; an `Except.error`
models the client raising an exception. -/
def ApiClient : Type :=
  String → String → String → Nat → Except PyErr String

/-- `generate_story_content(prompt, max_length)` (`src/app.py:167`):
calls the client if one was initialized, catching any exception; the
player name and genre it forwards are read from the session state by the
caller. -/
def generate_story_content (api_client : Option ApiClient)
    (player_name genre : String) (prompt : String) (max_length : Nat) : String :=
  match api_client with
  | some client =>
      match client prompt player_name genre max_length with
      | .ok t => t
      | .error _ => storyContinuesText
  | none => storytellerPausesText

/-- `create_new_scene(scene_prompt, option1_prompt, option2_prompt)`
(`src/app.py:185`): three generation calls, a fresh id
`scene_<len(story_data)+1>`, and insertion into `story_data`.  Returns the
new scene id together with the updated state. -/
def create_new_scene (api_client : Option ApiClient) (s : SessionState)
    (scene_prompt option1_prompt option2_prompt : String) :
    String × SessionState :=
  let scene_text := generate_story_content api_client s.player_name s.genre scene_prompt 200
  let option1 := generate_story_content api_client s.player_name s.genre option1_prompt 50
  let option2 := generate_story_content api_client s.player_name s.genre option2_prompt 50
  let scene_id := "scene_" ++ Nat.repr (s.story_data.length + 1)
  let newScene : Scene :=
    { text := scene_text
      options := [ { text := option1, next_scene := none },
                   { text := option2, next_scene := none } ] }
  let d := dictSet s.story_data scene_id newScene
  (scene_id, { s with story_data := d })

/-- `make_choice(choice_index)` (`src/app.py:205`).  The two dict/list
reads that build the history entry happen before any mutation, so a
`KeyError`/`IndexError` (the `.error` results) leaves the state of the
session exactly as it was; the error value carries that state. -/
def make_choice (api_client : Option ApiClient) (s : SessionState)
    (choice_index : Int) : Except (PyErr × SessionState) SessionState :=
  let current_scene := s.current_scene
  match dictGet? s.story_data current_scene with
  | none => .error (.keyError current_scene, s)
  | some sceneData =>
    match pyGet? sceneData.options choice_index with
    | none => .error (.indexError, s)
    | some chosenOpt =>
      let entry : HistoryEntry :=
        { scene := current_scene, text := sceneData.text,
          choice := choice_index, choice_text := chosenOpt.text }
      let s := { s with story_history := s.story_history ++ [entry] }
      let s := { s with choice_count := s.choice_count + 1 }
      if 20 ≤ s.choice_count then
        let s := { s with game_ended := true }
        let scene_prompt := "Conclude the story with an epic ending where " ++
          s.player_name ++ " finishes their journey."
        let r := create_new_scene api_client s scene_prompt "Play again" "Download story"
        .ok { r.2 with current_scene := r.1 }
      else
        let choice_text := chosenOpt.text
        let scene_prompt := "Continue the story after " ++ s.player_name ++
          " chose to " ++ choice_text
        let option1_prompt := "First possible action for " ++ s.player_name ++
          " after this scene"
        let option2_prompt := "Second possible action for " ++ s.player_name ++
          " after this scene, different from the first"
        let r := create_new_scene api_client s scene_prompt option1_prompt option2_prompt
        match dictGet? r.2.story_data current_scene with
        | none => .error (.keyError current_scene, r.2)
        | some sd =>
          let linkedOpt := { chosenOpt with next_scene := some r.1 }
          let sd2 := { sd with options := pySet sd.options choice_index linkedOpt }
          let s2 := { r.2 with story_data := dictSet r.2.story_data current_scene sd2 }
          .ok { s2 with current_scene := r.1 }

/-- The state built by the session-state initialization block
(`src/app.py:109`). -/
def init_state : SessionState :=
  { story_data := []
    current_scene := "start"
    player_name := ""
    genre := ""
    story_history := []
    choice_count := 0
    game_ended := false
    story_start_time := none }

/-- `reset_game()` (`src/app.py:138`). -/
def reset_game (_s : SessionState) : SessionState :=
  { story_data := []
    current_scene := "start"
    player_name := ""
    genre := ""
    story_history := []
    choice_count := 0
    game_ended := false
    story_start_time := none }

/-- The fixed genre list offered by the UI (`src/app.py:283`). -/
def genres : List String :=
  ["Horror", "Adventure", "Romance", "Fantasy", "Sci-Fi", "Mystery"]

/-- The `Begin Your Adventure` handler (`src/app.py:313`): records the
player name, creates the initial scene, sets it current, and records the
start time. -/
def start_adventure (api_client : Option ApiClient) (s : SessionState)
    (player_name : String) (now : Nat) : SessionState :=
  let s := { s with player_name := player_name }
  let scene_prompt := "Start a " ++ s.genre ++
    " story where the main character named " ++ player_name ++
    " begins their journey."
  let option1_prompt := "First possible action for " ++ player_name ++
    " at the beginning of this " ++ s.genre ++ " story"
  let option2_prompt := "Second possible action for " ++ player_name ++
    " at the beginning of this " ++ s.genre ++ " story, different from the first"
  let r := create_new_scene api_client s scene_prompt option1_prompt option2_prompt
  { r.2 with current_scene := r.1, story_start_time := some now }

/-- `compile_story()` (`src/app.py:245`), clock passed explicitly:
`now` stands for `time.time()` (whole seconds) and `date_str` for
`datetime.now().strftime('%B %d, %Y')`.  It reads the session state and
returns a string; it performs no state update. -/
def compile_story (s : SessionState) (now : Nat) (date_str : String) : String :=
  let story_text := "# " ++ s.player_name ++ "\x27s " ++ s.genre ++ " Adventure\n\n"
  let story_text := s.story_history.enum.foldl
    (fun acc ie => acc ++ "## Chapter " ++ Nat.repr (ie.1 + 1) ++ "\n\n" ++
      ie.2.text ++ "\n\n*" ++ s.player_name ++ " chose to " ++
      ie.2.choice_text ++ "*\n\n")
    story_text
  let story_text :=
    match s.game_ended, dictGet? s.story_data s.current_scene with
    | true, some final_scene => story_text ++ "## The End\n\n" ++ final_scene.text
    | _, _ => story_text
  story_text ++
    match s.story_start_time with
    | some start =>
        let elapsed := now - start
        let minutes := elapsed / 60
        let seconds := elapsed % 60
        "\n\n---\n\n" ++ "Story completed in " ++ Nat.repr minutes ++
          " minutes and " ++ Nat.repr seconds ++ " seconds.\n" ++
          "Made " ++ Nat.repr s.choice_count ++ " choices in this adventure.\n" ++
          "Generated on " ++ date_str
    | none => ""

/-- The clock-independent part of `compile_story`: title, chapters, and
the `The End` section. -/
def compile_body (s : SessionState) : String :=
  let story_text := "# " ++ s.player_name ++ "\x27s " ++ s.genre ++ " Adventure\n\n"
  let story_text := s.story_history.enum.foldl
    (fun acc ie => acc ++ "## Chapter " ++ Nat.repr (ie.1 + 1) ++ "\n\n" ++
      ie.2.text ++ "\n\n*" ++ s.player_name ++ " chose to " ++
      ie.2.choice_text ++ "*\n\n")
    story_text
  match s.game_ended, dictGet? s.story_data s.current_scene with
  | true, some final_scene => story_text ++ "## The End\n\n" ++ final_scene.text
  | _, _ => story_text

/-- The clock-dependent trailing metadata block of `compile_story`
(present only when `story_start_time` is set). -/
def compile_time_part (s : SessionState) (now : Nat) (date_str : String) : String :=
  match s.story_start_time with
  | some start =>
      let elapsed := now - start
      let minutes := elapsed / 60
      let seconds := elapsed % 60
      "\n\n---\n\n" ++ "Story completed in " ++ Nat.repr minutes ++
        " minutes and " ++ Nat.repr seconds ++ " seconds.\n" ++
        "Made " ++ Nat.repr s.choice_count ++ " choices in this adventure.\n" ++
        "Generated on " ++ date_str
  | none => ""

/-- Outcome of `requests.post` in `MistralAPI.generate_story`
(`src/mistral_api.py:60`): either the request itself raised (modelled by
`Except.error` with the exception message), or an HTTP response arrived,
carrying its status code and — when the JSON body is well-formed with a
`choices[0].message.content` field — the extracted text. -/
structure HttpResponse where
  status : Nat
  content : Option String
  deriving Repr, DecidableEq

/-- `response.raise_for_status()`: raises `requests.exceptions.HTTPError`
exactly on a 4xx/5xx status. -/
def raise_for_status (r : HttpResponse) : Except PyErr Unit :=
  if 400 ≤ r.status then .error (.httpError ("HTTP " ++ Nat.repr r.status)) else .ok ()

/-- The `try` body of `MistralAPI.generate_story` (`src/mistral_api.py:58`):
post the request, raise for status, parse, extract
`choices[0].message.content` (raising a lookup error on a malformed
envelope). -/
def mistral_try_body (outcome : Except String HttpResponse) : Except PyErr String :=
  match outcome with
  | .error m => .error (.requestError m)
  | .ok r =>
    match raise_for_status r with
    | .error e => .error e
    | .ok _ =>
      match r.content with
      | some t => .ok t
      | none => .error (.keyError "choices")

/-- `MistralAPI.generate_story` (`src/mistral_api.py:28`): the `try` body
with its two `except` clauses.  An `HTTPError` is turned into the string
`"Error: <exception>"`; every other exception is turned into the fixed
storyteller-pauses string.  The result is `Except` so that "no exception
escapes" is a statement, not a modelling assumption. -/
def mistral_generate_story (outcome : Except String HttpResponse) :
    Except PyErr String :=
  match mistral_try_body outcome with
  | .ok t => .ok t
  | .error (.httpError m) => .ok ("Error: " ++ m)
  | .error _ => .ok storytellerPausesText

/-! ### Decimal representation: `Nat.repr` is injective -/

/-- Structural version of the core fuel-based decimal printer. -/
def decDigits (n : Nat) : List Char :=
  if _h : n < 10 then [Nat.digitChar n]
  else decDigits (n / 10) ++ [Nat.digitChar (n % 10)]
termination_by n
decreasing_by exact Nat.div_lt_self (by omega) (by omega)

theorem toDigitsCore_eq_decDigits :
    ∀ (fuel n : Nat) (ds : List Char), n < fuel →
      Nat.toDigitsCore 10 fuel n ds = decDigits n ++ ds := by
  intro fuel
  induction fuel with
  | zero => intro n ds h; exact absurd h (Nat.not_lt_zero n)
  | succ f ih =>
    intro n ds h
    simp only [Nat.toDigitsCore]
    split
    · rename_i h10
      have hlt : n < 10 := by omega
      rw [decDigits, dif_pos hlt, Nat.mod_eq_of_lt hlt]
      rfl
    · rename_i h10
      have hge : ¬ n < 10 := by omega
      rw [ih (n / 10) _ (by omega)]
      conv_rhs => rw [decDigits]
      rw [dif_neg hge]
      simp

theorem toDigits_eq_decDigits (n : Nat) : Nat.toDigits 10 n = decDigits n := by
  rw [Nat.toDigits, toDigitsCore_eq_decDigits _ _ _ (Nat.lt_succ_self n),
    List.append_nil]

/-- Numeric value of a decimal digit character. -/
def digitVal (c : Char) : Nat := c.toNat - 48

theorem digitVal_digitChar (d : Nat) (h : d < 10) :
    digitVal (Nat.digitChar d) = d := by
  interval_cases d <;> decide

/-- Value of a most-significant-first decimal digit list. -/
def decVal (l : List Char) : Nat :=
  l.foldl (fun a c => a * 10 + digitVal c) 0

theorem decVal_decDigits (n : Nat) : decVal (decDigits n) = n := by
  induction n using Nat.strong_induction_on with
  | _ n ih =>
    rw [decDigits]
    split
    · rename_i hlt
      simp [decVal, List.foldl, digitVal_digitChar n hlt]
    · rename_i hge
      have h1 : n / 10 < n := Nat.div_lt_self (by omega) (by omega)
      have h2 := ih (n / 10) h1
      simp only [decVal] at h2 ⊢
      rw [List.foldl_append, h2]
      simp only [List.foldl]
      rw [digitVal_digitChar (n % 10) (by omega)]
      omega

theorem decDigits_injective : Function.Injective decDigits := by
  intro a b h
  have h2 := congrArg decVal h
  rwa [decVal_decDigits, decVal_decDigits] at h2

theorem nat_repr_injective : Function.Injective Nat.repr := by
  intro a b h
  rw [Nat.repr, Nat.repr] at h
  have h2 : Nat.toDigits 10 a = Nat.toDigits 10 b := congrArg String.data h
  rw [toDigits_eq_decDigits, toDigits_eq_decDigits] at h2
  exact decDigits_injective h2

/-! ### Scene identifiers -/

/-- The scene id created when `story_data` already holds `n` scenes:
`f"scene_{n + 1}"`. -/
def sceneKey (n : Nat) : String := "scene_" ++ Nat.repr (n + 1)

theorem sceneKey_injective : Function.Injective sceneKey := by
  intro a b h
  rw [sceneKey, sceneKey] at h
  have h2 := congrArg String.data h
  simp only [String.data_append] at h2
  have h3 := List.append_cancel_left h2
  have h4 : Nat.repr (a + 1) = Nat.repr (b + 1) := String.ext h3
  have h5 := nat_repr_injective h4
  omega

theorem sceneKey_ne_start (n : Nat) : sceneKey n ≠ "start" := by
  intro h
  have h2 := congrArg String.data h
  rw [sceneKey] at h2
  simp only [String.data_append] at h2
  have h3 := congrArg List.length h2
  simp [List.length_append] at h3

/-! ### Dictionary lemmas -/

theorem dictGet?_eq_none_iff (d : List (String × Scene)) (k : String) :
    dictGet? d k = none ↔ k ∉ d.map Prod.fst := by
  induction d with
  | nil => simp [dictGet?]
  | cons kv rest ih =>
    rw [dictGet?, List.map_cons, List.mem_cons]
    by_cases h : kv.1 = k
    · rw [if_pos h]
      simp [h]
    · rw [if_neg h, ih]
      constructor
      · intro hn hm
        rcases hm with hm | hm
        · exact h hm.symm
        · exact hn hm
      · exact fun hn hm => hn (Or.inr hm)

theorem dictGet?_isSome_of_mem (d : List (String × Scene)) (k : String)
    (h : k ∈ d.map Prod.fst) : (dictGet? d k).isSome := by
  cases hg : dictGet? d k with
  | none => exact absurd ((dictGet?_eq_none_iff d k).mp hg) (by simp [h])
  | some v => rfl

theorem dictGet?_mem (d : List (String × Scene)) (k : String) (v : Scene)
    (h : dictGet? d k = some v) : (k, v) ∈ d := by
  induction d with
  | nil => simp [dictGet?] at h
  | cons kv rest ih =>
    rw [dictGet?] at h
    split at h
    · rename_i heq
      cases kv
      cases h
      simp_all
    · simp [ih h]

theorem dictSet_of_fresh (d : List (String × Scene)) (k : String) (v : Scene)
    (h : dictGet? d k = none) : dictSet d k v = d ++ [(k, v)] := by
  induction d with
  | nil => rfl
  | cons kv rest ih =>
    rw [dictGet?] at h
    split at h
    · cases h
    · rename_i hne
      rw [dictSet, if_neg hne, ih h]
      simp

theorem dictSet_map_fst_of_some (d : List (String × Scene)) (k : String)
    (v w : Scene) (h : dictGet? d k = some w) :
    (dictSet d k v).map Prod.fst = d.map Prod.fst := by
  induction d with
  | nil => simp [dictGet?] at h
  | cons kv rest ih =>
    rw [dictGet?] at h
    split at h
    · rename_i heq
      rw [dictSet, if_pos heq]
      simp [heq]
    · rename_i hne
      rw [dictSet, if_neg hne]
      simp [ih h]

theorem dictSet_length_of_some (d : List (String × Scene)) (k : String)
    (v w : Scene) (h : dictGet? d k = some w) :
    (dictSet d k v).length = d.length := by
  have h2 := congrArg List.length (dictSet_map_fst_of_some d k v w h)
  simpa using h2

theorem dictGet?_dictSet_self (d : List (String × Scene)) (k : String) (v : Scene) :
    dictGet? (dictSet d k v) k = some v := by
  induction d with
  | nil => simp [dictSet, dictGet?]
  | cons kv rest ih =>
    rw [dictSet]
    split
    · simp [dictGet?]
    · rename_i hne
      rw [dictGet?, if_neg hne]
      exact ih

theorem dictGet?_dictSet_other (d : List (String × Scene)) (k k2 : String)
    (v : Scene) (h : k2 ≠ k) : dictGet? (dictSet d k v) k2 = dictGet? d k2 := by
  induction d with
  | nil =>
    show dictGet? [(k, v)] k2 = dictGet? [] k2
    rw [dictGet?, dictGet?]
    exact if_neg (fun hk => h hk.symm)
  | cons kv rest ih =>
    rw [dictSet]
    split
    · rename_i heq
      rw [dictGet?, dictGet?, if_neg (fun hk => h hk.symm),
        if_neg (fun hk => h (heq ▸ hk.symm))]
    · rename_i hne
      rw [dictGet?, dictGet?]
      split
      · rfl
      · exact ih

theorem dictSet_forall {P : String × Scene → Prop} (d : List (String × Scene))
    (k : String) (v : Scene) (hd : ∀ x ∈ d, P x) (hv : P (k, v)) :
    ∀ x ∈ dictSet d k v, P x := by
  induction d with
  | nil => simpa [dictSet]
  | cons kv rest ih =>
    rw [dictSet]
    split
    · intro x hx
      rcases List.mem_cons.mp hx with h | h
      · exact h ▸ hv
      · exact hd x (List.mem_cons_of_mem kv h)
    · intro x hx
      rcases List.mem_cons.mp hx with h | h
      · exact h ▸ hd kv (List.mem_cons_self kv rest)
      · exact ih (fun y hy => hd y (List.mem_cons_of_mem kv hy)) x h

theorem dictGet?_append_left (d1 d2 : List (String × Scene)) (k : String)
    (v : Scene) (h : dictGet? d1 k = some v) :
    dictGet? (d1 ++ d2) k = some v := by
  induction d1 with
  | nil => simp [dictGet?] at h
  | cons kv rest ih =>
    rw [List.cons_append, dictGet?]
    rw [dictGet?] at h
    split at h
    · rename_i heq
      rw [if_pos heq]
      exact h
    · rename_i hne
      rw [if_neg hne]
      exact ih h

/-! ### Python list indexing lemmas -/

theorem pyGet?_zero (a b : StoryOption) : pyGet? [a, b] 0 = some a := rfl

theorem pyGet?_one (a b : StoryOption) : pyGet? [a, b] 1 = some b := rfl

theorem exists_len2 (l : List StoryOption) (h : l.length = 2) :
    ∃ a b, l = [a, b] := by
  cases l with
  | nil => simp at h
  | cons a t =>
    cases t with
    | nil => simp at h
    | cons b t2 =>
      cases t2 with
      | nil => exact ⟨a, b, rfl⟩
      | cons c t3 => simp at h

theorem pyGet?_oor (l : List StoryOption) (idx : Int) (hlen : l.length = 2)
    (h : 2 ≤ idx ∨ idx ≤ -3) : pyGet? l idx = none := by
  rcases h with h | h
  · rw [pyGet?, if_pos (by omega : (0:Int) ≤ idx)]
    apply List.getElem?_eq_none
    omega
  · rw [pyGet?, if_neg (by omega : ¬ (0:Int) ≤ idx),
      if_neg (show ¬ (0:Int) ≤ (l.length : Int) + idx by rw [hlen]; omega)]

theorem pySet_length (l : List StoryOption) (i : Int) (v : StoryOption) :
    (pySet l i v).length = l.length := by
  rw [pySet]
  split
  · simp
  · split
    · simp
    · rfl

/-! ### The engine invariant and reachable session states -/

/-- Structural invariant of every session state the engine can build:
`choice_count` counts the history, `game_ended` mirrors the turn limit,
`story_data` holds scenes `scene_1 … scene_n` in creation order, every
scene has exactly two options, and the session is either still in setup
(`current_scene == "start"`, nothing generated) or in/after play with the
latest scene current. -/
def EngineInv (s : SessionState) : Prop :=
  s.choice_count = s.story_history.length ∧
  s.game_ended = decide (20 ≤ s.choice_count) ∧
  s.story_data.map Prod.fst = (List.range s.story_data.length).map sceneKey ∧
  (∀ kv ∈ s.story_data, kv.2.options.length = 2) ∧
  ((s.current_scene = "start" ∧ s.story_data = [] ∧ s.choice_count = 0) ∨
   (s.story_data.length = s.choice_count + 1 ∧
    s.current_scene = sceneKey s.choice_count))

instance (s : SessionState) : Decidable (EngineInv s) := by
  unfold EngineInv
  infer_instance

/-- Session states reachable through the engine operations as the UI
drives them: the initialization block, picking a genre on the start
screen, the `Begin Your Adventure` handler, a successful `make_choice`,
and `reset_game`. -/
inductive Reachable (api_client : Option ApiClient) : SessionState → Prop where
  | init : Reachable api_client init_state
  | choose_genre (s : SessionState) (g : String) :
      Reachable api_client s → s.current_scene = "start" → g ∈ genres →
      Reachable api_client { s with genre := g }
  | begin_adventure (s : SessionState) (name : String) (now : Nat) :
      Reachable api_client s → s.current_scene = "start" → s.genre ≠ "" →
      name ≠ "" → Reachable api_client (start_adventure api_client s name now)
  | choice (s : SessionState) (idx : Int) (s2 : SessionState) :
      Reachable api_client s → make_choice api_client s idx = .ok s2 →
      Reachable api_client s2
  | reset (s : SessionState) :
      Reachable api_client s → Reachable api_client (reset_game s)

theorem engineInv_fresh (s : SessionState)
    (hkeys : s.story_data.map Prod.fst =
      (List.range s.story_data.length).map sceneKey) :
    dictGet? s.story_data (sceneKey s.story_data.length) = none := by
  rw [dictGet?_eq_none_iff, hkeys]
  intro hmem
  rw [List.mem_map] at hmem
  obtain ⟨i, hi, hkey⟩ := hmem
  rw [List.mem_range] at hi
  have := sceneKey_injective hkey
  omega

/-- The scene built by the ending branch of `make_choice`: body generated
from the concluding prompt, options generated from the prompts
`"Play again"` and `"Download story"`. -/
def ending_scene (api_client : Option ApiClient) (pn gn : String) : Scene :=
  { text := generate_story_content api_client pn gn
      ("Conclude the story with an epic ending where " ++ pn ++
        " finishes their journey.") 200
    options :=
      [ { text := generate_story_content api_client pn gn "Play again" 50
          next_scene := none },
        { text := generate_story_content api_client pn gn "Download story" 50
          next_scene := none } ] }

/-- The scene built by the continuation branch of `make_choice`. -/
def continuation_scene (api_client : Option ApiClient)
    (pn gn choice_text : String) : Scene :=
  { text := generate_story_content api_client pn gn
      ("Continue the story after " ++ pn ++ " chose to " ++ choice_text) 200
    options :=
      [ { text := generate_story_content api_client pn gn
            ("First possible action for " ++ pn ++ " after this scene") 50
          next_scene := none },
        { text := generate_story_content api_client pn gn
            ("Second possible action for " ++ pn ++
              " after this scene, different from the first") 50
          next_scene := none } ] }


theorem make_choice_ending_eq (api_client : Option ApiClient)
    (s : SessionState) (idx : Int) (sc : Scene) (opt : StoryOption)
    (hfresh : dictGet? s.story_data (sceneKey s.story_data.length) = none)
    (hsc : dictGet? s.story_data s.current_scene = some sc)
    (hopt : pyGet? sc.options idx = some opt)
    (hcc : 19 ≤ s.choice_count) :
    make_choice api_client s idx = .ok
      { story_data := s.story_data ++
          [(sceneKey s.story_data.length,
            ending_scene api_client s.player_name s.genre)]
        current_scene := sceneKey s.story_data.length
        player_name := s.player_name
        genre := s.genre
        story_history := s.story_history ++
          [{ scene := s.current_scene, text := sc.text,
             choice := idx, choice_text := opt.text }]
        choice_count := s.choice_count + 1
        game_ended := true
        story_start_time := s.story_start_time } := by
  have hfresh2 : dictGet? s.story_data
      ("scene_" ++ Nat.repr (s.story_data.length + 1)) = none := hfresh
  have hcc2 : 20 ≤ s.choice_count + 1 := by omega
  rw [make_choice]
  split
  · rename_i heq
    rw [hsc] at heq
    cases heq
  · rename_i sceneData heq
    rw [hsc] at heq
    obtain rfl : sc = sceneData := Option.some.inj heq
    split
    · rename_i heq2
      rw [hopt] at heq2
      cases heq2
    · rename_i chosenOpt heq2
      rw [hopt] at heq2
      obtain rfl : opt = chosenOpt := Option.some.inj heq2
      simp [create_new_scene, dictSet_of_fresh _ _ _ hfresh2, ending_scene,
        sceneKey, hcc2]

theorem make_choice_continue_eq (api_client : Option ApiClient)
    (s : SessionState) (idx : Int) (sc : Scene) (opt : StoryOption)
    (hfresh : dictGet? s.story_data (sceneKey s.story_data.length) = none)
    (hsc : dictGet? s.story_data s.current_scene = some sc)
    (hopt : pyGet? sc.options idx = some opt)
    (hcc : s.choice_count + 1 < 20) :
    make_choice api_client s idx = .ok
      { story_data := dictSet
          (s.story_data ++
            [(sceneKey s.story_data.length,
              continuation_scene api_client s.player_name s.genre opt.text)])
          s.current_scene
          (Scene.mk sc.text (pySet sc.options idx
            (StoryOption.mk opt.text (some (sceneKey s.story_data.length)))))
        current_scene := sceneKey s.story_data.length
        player_name := s.player_name
        genre := s.genre
        story_history := s.story_history ++
          [{ scene := s.current_scene, text := sc.text,
             choice := idx, choice_text := opt.text }]
        choice_count := s.choice_count + 1
        game_ended := s.game_ended
        story_start_time := s.story_start_time } := by
  have hfresh2 : dictGet? s.story_data
      ("scene_" ++ Nat.repr (s.story_data.length + 1)) = none := hfresh
  have hcc2 : ¬ 20 ≤ s.choice_count + 1 := by omega
  rw [make_choice]
  split
  · rename_i heq
    rw [hsc] at heq
    cases heq
  · rename_i sceneData heq
    rw [hsc] at heq
    obtain rfl : sc = sceneData := Option.some.inj heq
    split
    · rename_i heq2
      rw [hopt] at heq2
      cases heq2
    · rename_i chosenOpt heq2
      rw [hopt] at heq2
      obtain rfl : opt = chosenOpt := Option.some.inj heq2
      simp only [create_new_scene, hcc2, if_false]
      simp only [dictSet_of_fresh _ _ _ hfresh2]
      simp [dictGet?_append_left _ _ _ _ hsc, continuation_scene, sceneKey]

theorem make_choice_ok_inv (api_client : Option ApiClient) (s : SessionState)
    (idx : Int) (s2 : SessionState) (h : make_choice api_client s idx = .ok s2) :
    ∃ sc opt, dictGet? s.story_data s.current_scene = some sc ∧
      pyGet? sc.options idx = some opt := by
  rw [make_choice] at h
  split at h
  · cases h
  · rename_i sc heq
    split at h
    · cases h
    · rename_i opt heq2
      exact ⟨sc, opt, heq, heq2⟩

theorem engineInv_play (s : SessionState) (hInv : EngineInv s)
    (hne : s.story_data ≠ []) :
    s.story_data.length = s.choice_count + 1 ∧
    s.current_scene = sceneKey s.choice_count := by
  rcases hInv.2.2.2.2 with ⟨_, hemp, _⟩ | h
  · exact absurd hemp hne
  · exact h

theorem engineInv_scene (s : SessionState) (hInv : EngineInv s)
    (hne : s.story_data ≠ []) :
    ∃ sc, dictGet? s.story_data s.current_scene = some sc ∧
      sc.options.length = 2 := by
  obtain ⟨hlen, hcur⟩ := engineInv_play s hInv hne
  have hmem : s.current_scene ∈ s.story_data.map Prod.fst := by
    rw [hInv.2.2.1, hcur]
    apply List.mem_map_of_mem
    rw [List.mem_range]
    omega
  have hsome := dictGet?_isSome_of_mem _ _ hmem
  cases hg : dictGet? s.story_data s.current_scene with
  | none => rw [hg] at hsome; cases hsome
  | some sc =>
    exact ⟨sc, rfl, hInv.2.2.2.1 (s.current_scene, sc) (dictGet?_mem _ _ _ hg)⟩

theorem reachable_engineInv (api_client : Option ApiClient) (s : SessionState)
    (h : Reachable api_client s) : EngineInv s := by
  induction h with
  | init => decide
  | choose_genre s g hr hcur hg ih => simpa [EngineInv] using ih
  | begin_adventure s name now hr hcur hgen hname ih =>
    obtain ⟨h1, h2, h3, h4, h5⟩ := ih
    rcases h5 with ⟨_, hemp, hcc0⟩ | ⟨hlen, hcur2⟩
    · refine ⟨?_, ?_, ?_, ?_, Or.inr ⟨?_, ?_⟩⟩
      · simpa [start_adventure, create_new_scene, hemp] using h1
      · simpa [start_adventure, create_new_scene, hemp] using h2
      · simp [start_adventure, create_new_scene, dictSet, hemp]
        decide
      · simp [start_adventure, create_new_scene, dictSet, hemp]
      · simp [start_adventure, create_new_scene, dictSet, hemp, hcc0]
      · simp [start_adventure, create_new_scene, dictSet, hemp, hcc0, sceneKey]
    · rw [hcur] at hcur2
      exact absurd hcur2.symm (sceneKey_ne_start s.choice_count)
  | choice s idx s2 hr hok ih =>
    obtain ⟨sc, opt, hsc, hopt⟩ := make_choice_ok_inv _ _ _ _ hok
    have hne : s.story_data ≠ [] := by
      intro hemp
      rw [hemp] at hsc
      cases hsc
    obtain ⟨hlen, hcur⟩ := engineInv_play s ih hne
    have hfresh := engineInv_fresh s ih.2.2.1
    obtain ⟨h1, h2, h3, h4, _⟩ := ih
    have hsc2 : sc.options.length = 2 :=
      h4 (s.current_scene, sc) (dictGet?_mem _ _ _ hsc)
    by_cases hcc : 20 ≤ s.choice_count + 1
    · rw [make_choice_ending_eq api_client s idx sc opt hfresh hsc hopt
        (by omega)] at hok
      injection hok with hok2
      subst hok2
      refine ⟨?_, ?_, ?_, ?_, Or.inr ⟨?_, ?_⟩⟩
      · simp [h1]
      · simp [hcc]
      · simp only [List.map_append, List.length_append, h3]
        simp [List.range_succ]
      · intro x hx
        rcases List.mem_append.mp hx with hx | hx
        · exact h4 x hx
        · simp at hx
          subst hx
          simp [ending_scene]
      · simp [hlen]
      · simp [hlen]
    · rw [make_choice_continue_eq api_client s idx sc opt hfresh hsc hopt
        (by omega)] at hok
      injection hok with hok2
      subst hok2
      have hscA : dictGet? (s.story_data ++
          [(sceneKey s.story_data.length,
            continuation_scene api_client s.player_name s.genre opt.text)])
          s.current_scene = some sc := dictGet?_append_left _ _ _ _ hsc
      refine ⟨?_, ?_, ?_, ?_, Or.inr ⟨?_, ?_⟩⟩
      · simp [h1]
      · simp only []
        rw [h2]
        have hc1 : ¬ 20 ≤ s.choice_count := by omega
        simp [hcc, hc1]
      · simp only []
        rw [dictSet_map_fst_of_some _ _ _ _ hscA,
          dictSet_length_of_some _ _ _ _ hscA]
        simp only [List.map_append, List.length_append, h3]
        simp [List.range_succ]
      · simp only []
        apply dictSet_forall
        · intro x hx
          rcases List.mem_append.mp hx with hx | hx
          · exact h4 x hx
          · simp at hx
            subst hx
            simp [continuation_scene]
        · simp [pySet_length, hsc2]
      · simp only []
        rw [dictSet_length_of_some _ _ _ _ hscA]
        simp [hlen]
      · simp [hlen]
  | reset s hr ih => exact (by decide : EngineInv init_state)

/-! ### Concrete session states for witnesses and counterexamples -/

/-- The successful-result state of a `make_choice` call, if any. -/
def okState? (e : Except (PyErr × SessionState) SessionState) :
    Option SessionState :=
  match e with
  | .ok s => some s
  | .error _ => none

/-- A generated scene shape: two options, forward links still null. -/
def demo_scene : Scene :=
  { text := "T"
    options := [ { text := "A", next_scene := none },
                 { text := "B", next_scene := none } ] }

/-- History entry recorded for picking option 0 of scene `i`. -/
def demo_entry (i : Nat) : HistoryEntry :=
  { scene := sceneKey i, text := "T", choice := 0, choice_text := "A" }

/-- An in-play session right after the first scene was generated. -/
def s_play : SessionState :=
  { story_data := [(sceneKey 0, demo_scene)]
    current_scene := sceneKey 0
    player_name := "Mira"
    genre := "Fantasy"
    story_history := []
    choice_count := 0
    game_ended := false
    story_start_time := some 0 }

/-- An in-play session that has made 19 choices: the next `make_choice`
reaches the turn limit. -/
def s_turn19 : SessionState :=
  { story_data := (List.range 20).map (fun i => (sceneKey i, demo_scene))
    current_scene := sceneKey 19
    player_name := "Alex"
    genre := "Horror"
    story_history := (List.range 19).map demo_entry
    choice_count := 19
    game_ended := false
    story_start_time := some 0 }

/-- A session that has ended: 20 choices made, concluding scene current. -/
def s_ended : SessionState :=
  { story_data := (List.range 21).map (fun i => (sceneKey i, demo_scene))
    current_scene := sceneKey 20
    player_name := "Alex"
    genre := "Horror"
    story_history := (List.range 20).map demo_entry
    choice_count := 20
    game_ended := true
    story_start_time := some 0 }

/-- The state produced by starting a Fantasy adventure for Mira with no
generator available. -/
def s_started : SessionState :=
  start_adventure none { init_state with genre := "Fantasy" } "Mira" 0

/-- A generator client that succeeds and returns its prompt wrapped in
brackets, making visible what each generated text was prompted with. -/
def bracket_client : ApiClient :=
  fun prompt _pn _gn _mt => .ok ("[" ++ prompt ++ "]")

/-! ### Further dictionary and operation lemmas -/

theorem dictGet?_append_right (d1 d2 : List (String × Scene)) (k : String)
    (h : dictGet? d1 k = none) :
    dictGet? (d1 ++ d2) k = dictGet? d2 k := by
  induction d1 with
  | nil => rfl
  | cons kv rest ih =>
    rw [dictGet?] at h
    split at h
    · cases h
    · rename_i hne
      rw [List.cons_append, dictGet?, if_neg hne]
      exact ih h

theorem dictGet?_dictSet_isSome (d : List (String × Scene)) (k k2 : String)
    (v : Scene) (h : (dictGet? d k2).isSome) :
    (dictGet? (dictSet d k v) k2).isSome := by
  by_cases hk : k2 = k
  · subst hk
    rw [dictGet?_dictSet_self]
    rfl
  · rw [dictGet?_dictSet_other d k k2 v hk]
    exact h

theorem dictGet?_dictSet_ne_none (d : List (String × Scene)) (k k2 : String)
    (v : Scene) (h : (dictGet? d k2).isSome) :
    dictGet? (dictSet d k v) k2 ≠ none := by
  intro hnone
  have hs2 := dictGet?_dictSet_isSome d k k2 v h
  rw [hnone] at hs2
  cases hs2

theorem make_choice_ok_counts (api_client : Option ApiClient)
    (s : SessionState) (idx : Int) (s2 : SessionState)
    (h : make_choice api_client s idx = .ok s2) :
    s2.choice_count = s.choice_count + 1 ∧
    s2.story_history.length = s.story_history.length + 1 := by
  rw [make_choice] at h
  split at h
  · cases h
  · split at h
    · cases h
    · simp only [] at h
      split at h
      · simp only [create_new_scene] at h
        injection h with h2
        subst h2
        constructor <;> simp
      · simp only [create_new_scene] at h
        split at h
        · cases h
        · injection h with h2
          subst h2
          constructor <;> simp

theorem make_choice_error_state (api_client : Option ApiClient)
    (s : SessionState) (idx : Int) (e : PyErr) (s2 : SessionState)
    (h : make_choice api_client s idx = .error (e, s2)) : s2 = s := by
  rw [make_choice] at h
  split at h
  · injection h with h2
    exact (congrArg Prod.snd h2).symm
  · rename_i sc heq
    split at h
    · injection h with h2
      exact (congrArg Prod.snd h2).symm
    · rename_i opt heq2
      simp only [] at h
      split at h
      · simp only [create_new_scene] at h
        cases h
      · simp only [create_new_scene] at h
        split at h
        · rename_i heq3
          have hs : (dictGet? s.story_data s.current_scene).isSome := by
            rw [heq]; rfl
          exact absurd heq3 (dictGet?_dictSet_ne_none _ _ _ _ hs)
        · cases h

/-- C5: `choice_count == len(story_history)` holds in the initial session
state and is preserved by every engine operation: by `reset_game`, by
`start_adventure` (the Begin-Your-Adventure handler), and by `make_choice`
both on success and on its exception paths, whose error value carries the
unchanged pre-call state; `compile_story` reads the session state and
returns only text, so it cannot affect the invariant.  In particular the
invariant holds before and after every `make_choice` call. -/
theorem c5_choice_count_eq_history :
    (init_state.choice_count = init_state.story_history.length) ∧
    (∀ s : SessionState, s.choice_count = s.story_history.length →
      (reset_game s).choice_count = (reset_game s).story_history.length) ∧
    (∀ (api_client : Option ApiClient) (s : SessionState) (name : String)
      (now : Nat), s.choice_count = s.story_history.length →
      (start_adventure api_client s name now).choice_count =
        (start_adventure api_client s name now).story_history.length) ∧
    (∀ (api_client : Option ApiClient) (s : SessionState) (idx : Int)
      (s2 : SessionState), s.choice_count = s.story_history.length →
      make_choice api_client s idx = .ok s2 →
      s2.choice_count = s2.story_history.length) ∧
    (∀ (api_client : Option ApiClient) (s : SessionState) (idx : Int)
      (e : PyErr) (s2 : SessionState),
      make_choice api_client s idx = .error (e, s2) → s2 = s) := by
  refine ⟨rfl, fun s h => rfl, ?_, ?_, ?_⟩
  · intro api_client s name now h
    simpa [start_adventure, create_new_scene] using h
  · intro api_client s idx s2 h hok
    obtain ⟨h1, h2⟩ := make_choice_ok_counts api_client s idx s2 hok
    rw [h1, h2, h]
  · intro api_client s idx e s2 h
    exact make_choice_error_state api_client s idx e s2 h

/-- Witness for C5 at a concrete input: starting an adventure from the
initial state preserves the invariant. -/
theorem c5_witness :
    (start_adventure none init_state "Mira" 0).choice_count =
      (start_adventure none init_state "Mira" 0).story_history.length :=
  c5_choice_count_eq_history.2.2.1 none init_state "Mira" 0 rfl

/-- C6: in every reachable session state, `game_ended` is true exactly
when `choice_count` has reached the turn limit 20; the only transition
back to false is `reset_game` / a fresh session, which is itself part of
`Reachable`. -/
theorem c6_ended_iff_turn_limit (api_client : Option ApiClient)
    (s : SessionState) (h : Reachable api_client s) :
    s.game_ended = true ↔ 20 ≤ s.choice_count := by
  have h2 := (reachable_engineInv api_client s h).2.1
  rw [h2]
  simp

/-- Witness for C6 at a concrete reachable state: the initial state. -/
theorem c6_witness :
    init_state.game_ended = true ↔ 20 ≤ init_state.choice_count :=
  c6_ended_iff_turn_limit none init_state Reachable.init

/-- C7: calling `make_choice` with an index on which Python list indexing
fails (`idx ≥ 2` or `idx ≤ -3` for the two-option scenes) raises
`IndexError` while building the history entry, before any mutation: the
call returns the error together with the untouched pre-call state, so
`choice_count`, `story_history` and `story_data` are all unchanged. -/
theorem c7_out_of_range_rejected (api_client : Option ApiClient)
    (s : SessionState) (idx : Int) (hInv : EngineInv s)
    (hne : s.story_data ≠ []) (hoor : 2 ≤ idx ∨ idx ≤ -3) :
    make_choice api_client s idx = .error (PyErr.indexError, s) := by
  obtain ⟨sc, hsc, hlen2⟩ := engineInv_scene s hInv hne
  rw [make_choice]
  split
  · rename_i heq
    rw [hsc] at heq
    cases heq
  · rename_i sceneData heq
    rw [hsc] at heq
    obtain rfl : sc = sceneData := Option.some.inj heq
    split
    · rfl
    · rename_i opt heq2
      rw [pyGet?_oor sc.options idx hlen2 hoor] at heq2
      cases heq2

/-- Witness for C7 at a concrete input: `make_choice(2)` on an in-play
session is rejected with the state unchanged. -/
theorem c7_witness :
    make_choice none s_play 2 = .error (PyErr.indexError, s_play) :=
  c7_out_of_range_rejected none s_play 2 (by decide) (by decide)
    (Or.inl (by decide))

/-- C9: once a session has left setup (some scene exists), in every
reachable state `len(story_data) == choice_count + 1` — including the
state right after the ending choice, which increments the counter and
creates exactly one concluding scene — and `current_scene` is the id of
the most recently created scene, `scene_<len(story_data)>`. -/
theorem c9_scene_count (api_client : Option ApiClient) (s : SessionState)
    (h : Reachable api_client s) (hne : s.story_data ≠ []) :
    s.story_data.length = s.choice_count + 1 ∧
    s.current_scene = "scene_" ++ Nat.repr s.story_data.length := by
  have hInv := reachable_engineInv api_client s h
  obtain ⟨hlen, hcur⟩ := engineInv_play s hInv hne
  refine ⟨hlen, ?_⟩
  rw [hcur, sceneKey, hlen]

/-- Witness for C9 at a concrete reachable state: right after starting an
adventure. -/
theorem c9_witness :
    s_started.story_data.length = s_started.choice_count + 1 ∧
    s_started.current_scene = "scene_" ++ Nat.repr s_started.story_data.length :=
  c9_scene_count none s_started
    (Reachable.begin_adventure { init_state with genre := "Fantasy" } "Mira" 0
      (Reachable.choose_genre init_state "Fantasy" Reachable.init rfl
        (by decide))
      rfl (by decide) (by decide))
    (by decide)

/-- C8: `compile_story` is a pure function of the session state and the
clock (`now`, `date_str`): it takes the state read-only and returns only
text, and its output decomposes into a clock-independent part
(`compile_body`) followed by the trailing metadata block, which is the
only part that mentions the clock; in particular two calls with the same
(frozen) clock yield byte-identical text, and when `story_start_time`
is unset the output does not depend on the clock at all. -/
theorem c8_compile_story_pure (s : SessionState) (now1 now2 : Nat)
    (d1 d2 : String) :
    compile_story s now1 d1 = compile_body s ++ compile_time_part s now1 d1 ∧
    compile_story s now1 d1 = compile_story s now1 d1 ∧
    (s.story_start_time = none →
      compile_story s now1 d1 = compile_story s now2 d2) := by
  refine ⟨rfl, rfl, ?_⟩
  intro h
  simp [compile_story, h]

/-- Witness for C8 at a concrete input: with no start time recorded the
compiled text is identical under two different clocks. -/
theorem c8_witness :
    compile_story init_state 5 "May 01, 2026" =
      compile_story init_state 99 "June 02, 2026" :=
  (c8_compile_story_pure init_state 5 99 "May 01, 2026" "June 02, 2026").2.2 rfl

/-- C10: the engine-side wrapper `generate_story_content` is total — it
returns a string for every prompt by construction — and its full
behaviour: the fixed pause placeholder when no client was initialized,
the client's text when the client returns one, and the third fixed
placeholder when the client raises; that third placeholder differs from
the adapter's catch-all fallback and from every string of the adapter's
`"Error: ..."` family. -/
theorem c10_generate_story_content_total (api_client : Option ApiClient)
    (pn gn prompt : String) (max_length : Nat) :
    (api_client = none →
      generate_story_content api_client pn gn prompt max_length =
        storytellerPausesText) ∧
    (∀ (client : ApiClient) (e : PyErr), api_client = some client →
      client prompt pn gn max_length = .error e →
      generate_story_content api_client pn gn prompt max_length =
        storyContinuesText) ∧
    (∀ (client : ApiClient) (t : String), api_client = some client →
      client prompt pn gn max_length = .ok t →
      generate_story_content api_client pn gn prompt max_length = t) ∧
    storyContinuesText ≠ storytellerPausesText ∧
    (∀ m : String, storyContinuesText ≠ "Error: " ++ m) := by
  refine ⟨?_, ?_, ?_, by decide, ?_⟩
  · intro h
    subst h
    rfl
  · intro client e h he
    subst h
    simp [generate_story_content, he]
  · intro client t h ht
    subst h
    simp [generate_story_content, ht]
  · intro m h
    have h2 := congrArg (fun t => t.data.take 7) h
    simp only [String.data_append] at h2
    rw [List.take_left'
      (show (['E', 'r', 'r', 'o', 'r', ':', ' '] : List Char).length = 7
        from rfl)] at h2
    exact absurd h2 (by decide)

/-- Witness for C10 at a concrete input: with no client the wrapper
returns the pause placeholder. -/
theorem c10_witness :
    generate_story_content none "Alex" "Horror" "Start a story" 150 =
      storytellerPausesText :=
  (c10_generate_story_content_total none "Alex" "Horror" "Start a story"
    150).1 rfl

/-- Counterexample for C4: an HTTP failure of the issued call does not
produce a fixed pause-themed string — `MistralAPI.generate_story` turns
`HTTPError` into `"Error: <exception>"`, which varies with the failure
(404 and 500 give different strings) and is not the storyteller-pauses
string, so the failure results do not form a set of two fixed fallback
strings. -/
theorem c4_counterexample :
    mistral_generate_story (.ok { status := 404, content := none }) =
      .ok "Error: HTTP 404" ∧
    mistral_generate_story (.ok { status := 500, content := none }) =
      .ok "Error: HTTP 500" ∧
    ("Error: HTTP 404" : String) ≠ "Error: HTTP 500" ∧
    ("Error: HTTP 404" : String) ≠ storytellerPausesText ∧
    ("Error: HTTP 500" : String) ≠ storytellerPausesText ∧
    mistral_generate_story (.error "connection reset") =
      .ok storytellerPausesText := by
  refine ⟨rfl, rfl, by decide, by decide, by decide, rfl⟩

/-- C4 (amended): once initialized, `MistralAPI.generate_story` never
lets an exception escape — every outcome yields `Except.ok` — but the
fallback on an HTTP error of an issued call is the non-fixed string
`"Error: <exception>"`, while every other failure (request exception or
malformed response envelope) yields the same storyteller-pauses string
that the engine also uses for a missing generator, not a distinct one. -/
theorem c4_generate_story_amended (outcome : Except String HttpResponse) :
    (∃ t, mistral_generate_story outcome = .ok t) ∧
    (∀ m, outcome = .error m →
      mistral_generate_story outcome = .ok storytellerPausesText) ∧
    (∀ r : HttpResponse, outcome = .ok r → 400 ≤ r.status →
      mistral_generate_story outcome =
        .ok ("Error: " ++ ("HTTP " ++ Nat.repr r.status))) ∧
    (∀ r : HttpResponse, outcome = .ok r → r.status < 400 → r.content = none →
      mistral_generate_story outcome = .ok storytellerPausesText) ∧
    (∀ (r : HttpResponse) (t : String), outcome = .ok r → r.status < 400 →
      r.content = some t → mistral_generate_story outcome = .ok t) := by
  refine ⟨?_, ?_, ?_, ?_, ?_⟩
  · cases outcome with
    | error m =>
      exact ⟨storytellerPausesText, rfl⟩
    | ok r =>
      by_cases h4 : 400 ≤ r.status
      · refine ⟨"Error: " ++ ("HTTP " ++ Nat.repr r.status), ?_⟩
        simp only [mistral_generate_story, mistral_try_body, raise_for_status]
        rw [if_pos h4]
      · cases hc : r.content with
        | none =>
          refine ⟨storytellerPausesText, ?_⟩
          simp only [mistral_generate_story, mistral_try_body, raise_for_status]
          rw [if_neg h4, hc]
        | some t =>
          refine ⟨t, ?_⟩
          simp only [mistral_generate_story, mistral_try_body, raise_for_status]
          rw [if_neg h4, hc]
  · intro m hm
    subst hm
    rfl
  · intro r hr h4
    subst hr
    simp only [mistral_generate_story, mistral_try_body, raise_for_status]
    rw [if_pos h4]
  · intro r hr h4 hc
    subst hr
    simp only [mistral_generate_story, mistral_try_body, raise_for_status]
    rw [if_neg (by omega : ¬ 400 ≤ r.status), hc]
  · intro r t hr h4 hc
    subst hr
    simp only [mistral_generate_story, mistral_try_body, raise_for_status]
    rw [if_neg (by omega : ¬ 400 ≤ r.status), hc]

/-- Witness for the amended C4 at a concrete input: a request exception
yields the storyteller-pauses fallback, not a raised error. -/
theorem c4_witness :
    mistral_generate_story (.error "connection refused") =
      .ok storytellerPausesText :=
  (c4_generate_story_amended (.error "connection refused")).2.1
    "connection refused" rfl

/-- Counterexample for C1: on a reachable-shaped in-play session with 19
choices made (`s_turn19`), the 20th `make_choice(0)` satisfies every
hypothesis of the claim, creates a new scene, but leaves the chosen
option's `next_scene` equal to `none` — the ending branch of
`make_choice` returns before the link assignment, so the claim's
"including the choice that reaches the turn limit" part fails. -/
theorem c1_counterexample :
    EngineInv s_turn19 ∧ s_turn19.game_ended = false ∧
    (okState? (make_choice none s_turn19 0)).map
        (fun s2 => (dictGet? s2.story_data s_turn19.current_scene).map
          (fun sc => sc.options.map (fun o => o.next_scene))) =
      some (some [none, none]) :=
  ⟨by decide, rfl, by decide⟩

/-- C1 (amended): on every in-play session state and valid choice index
(0 or 1), `make_choice` succeeds, increases `choice_count` by exactly 1,
appends exactly one history entry (capturing the current scene and the
chosen option), and inserts one new scene under the id
`scene_<len+1>`, which did not previously exist in `story_data`; the
chosen option's `next_scene` is set to that fresh id exactly when the
new `choice_count` stays below 20 — the choice that reaches the turn
limit still creates the (concluding) scene but leaves the current
scene, and hence the chosen option's null link, untouched. -/
theorem c1_make_choice_amended (api_client : Option ApiClient)
    (s : SessionState) (idx : Int) (hInv : EngineInv s)
    (hne : s.story_data ≠ []) (_hplay : s.game_ended = false)
    (hidx : idx = 0 ∨ idx = 1) :
    ∃ sc opt s2,
      dictGet? s.story_data s.current_scene = some sc ∧
      pyGet? sc.options idx = some opt ∧
      make_choice api_client s idx = .ok s2 ∧
      s2.choice_count = s.choice_count + 1 ∧
      s2.story_history = s.story_history ++
        [{ scene := s.current_scene, text := sc.text, choice := idx,
           choice_text := opt.text }] ∧
      dictGet? s.story_data (sceneKey s.story_data.length) = none ∧
      (dictGet? s2.story_data (sceneKey s.story_data.length)).isSome = true ∧
      (s.choice_count + 1 < 20 →
        dictGet? s2.story_data s.current_scene =
          some (Scene.mk sc.text (pySet sc.options idx
            (StoryOption.mk opt.text (some (sceneKey s.story_data.length)))))) ∧
      (20 ≤ s.choice_count + 1 →
        dictGet? s2.story_data s.current_scene =
          dictGet? s.story_data s.current_scene) := by
  obtain ⟨sc, hsc, hlen2⟩ := engineInv_scene s hInv hne
  have hfresh := engineInv_fresh s hInv.2.2.1
  obtain ⟨a, b, hab⟩ := exists_len2 sc.options hlen2
  have hopt : ∃ opt, pyGet? sc.options idx = some opt := by
    rcases hidx with rfl | rfl
    · exact ⟨a, by rw [hab]; rfl⟩
    · exact ⟨b, by rw [hab]; rfl⟩
  obtain ⟨opt, hopt⟩ := hopt
  have hneq : sceneKey s.story_data.length ≠ s.current_scene := by
    intro h
    rw [h, hsc] at hfresh
    cases hfresh
  by_cases hcc : 20 ≤ s.choice_count + 1
  · refine ⟨sc, opt, _, hsc, hopt,
      make_choice_ending_eq api_client s idx sc opt hfresh hsc hopt (by omega),
      rfl, rfl, hfresh, ?_, ?_, ?_⟩
    · simp only []
      rw [dictGet?_append_right _ _ _ hfresh]
      simp [dictGet?]
    · intro h
      omega
    · intro h
      simp only []
      rw [dictGet?_append_left _ _ _ _ hsc, hsc]
  · refine ⟨sc, opt, _, hsc, hopt,
      make_choice_continue_eq api_client s idx sc opt hfresh hsc hopt
        (by omega), rfl, rfl, hfresh, ?_, ?_, ?_⟩
    · simp only []
      rw [dictGet?_dictSet_other _ _ _ _ hneq,
        dictGet?_append_right _ _ _ hfresh]
      simp [dictGet?]
    · intro h
      simp only []
      exact dictGet?_dictSet_self _ _ _
    · intro h
      omega

/-- Witness for the amended C1 at a concrete input: picking option 0 on
the freshly started one-scene session. -/
theorem c1_witness :
    ∃ sc opt s2,
      dictGet? s_play.story_data s_play.current_scene = some sc ∧
      pyGet? sc.options 0 = some opt ∧
      make_choice none s_play 0 = .ok s2 ∧
      s2.choice_count = s_play.choice_count + 1 ∧
      s2.story_history = s_play.story_history ++
        [{ scene := s_play.current_scene, text := sc.text, choice := 0,
           choice_text := opt.text }] ∧
      dictGet? s_play.story_data (sceneKey s_play.story_data.length) = none ∧
      (dictGet? s2.story_data (sceneKey s_play.story_data.length)).isSome =
        true ∧
      (s_play.choice_count + 1 < 20 →
        dictGet? s2.story_data s_play.current_scene =
          some (Scene.mk sc.text (pySet sc.options 0
            (StoryOption.mk opt.text
              (some (sceneKey s_play.story_data.length)))))) ∧
      (20 ≤ s_play.choice_count + 1 →
        dictGet? s2.story_data s_play.current_scene =
          dictGet? s_play.story_data s_play.current_scene) :=
  c1_make_choice_amended none s_play 0 (by decide) (by decide) rfl
    (Or.inl rfl)

/-- Counterexample for C2: with a generator client that returns its
prompt wrapped in brackets, the concluding scene produced by the 20th
choice has option texts `"[Play again]"` and `"[Download story]"` — the
generator's outputs on the prompts `"Play again"` / `"Download story"` —
not the fixed terminal labels themselves, refuting "the resulting
scene's two options are the fixed terminal labels". -/
theorem c2_counterexample :
    s_turn19.choice_count = 19 ∧
    (okState? (make_choice (some bracket_client) s_turn19 0)).map
        (fun s2 => (dictGet? s2.story_data s2.current_scene).map
          (fun sc => sc.options.map (fun o => o.text))) =
      some (some ["[Play again]", "[Download story]"]) ∧
    ("[Play again]" : String) ≠ "Play again" ∧
    ("[Download story]" : String) ≠ "Download story" :=
  ⟨rfl, by decide, by decide, by decide⟩

/-- C2 (amended): the `make_choice` call that takes `choice_count` from
19 to 20 sets `game_ended`, generates exactly one concluding scene from
the ending-flavored prompt and makes it current, generating no normal
continuation; the concluding scene's two option *prompts* are the fixed
terminal labels "Play again" / "Download story" — its option texts are
whatever `generate_story_content` returns for those prompts. -/
theorem c2_turn_limit_amended (api_client : Option ApiClient)
    (s : SessionState) (idx : Int) (hInv : EngineInv s)
    (hne : s.story_data ≠ []) (hcc : s.choice_count = 19)
    (hidx : idx = 0 ∨ idx = 1) :
    ∃ s2, make_choice api_client s idx = .ok s2 ∧
      s2.choice_count = 20 ∧
      s2.game_ended = true ∧
      s2.story_data.length = s.story_data.length + 1 ∧
      s2.current_scene = sceneKey s.story_data.length ∧
      dictGet? s2.story_data s2.current_scene =
        some (ending_scene api_client s.player_name s.genre) ∧
      (ending_scene api_client s.player_name s.genre).options.map
          (fun o => o.text) =
        [generate_story_content api_client s.player_name s.genre
           "Play again" 50,
         generate_story_content api_client s.player_name s.genre
           "Download story" 50] ∧
      (ending_scene api_client s.player_name s.genre).text =
        generate_story_content api_client s.player_name s.genre
          ("Conclude the story with an epic ending where " ++ s.player_name ++
            " finishes their journey.") 200 := by
  obtain ⟨sc, hsc, hlen2⟩ := engineInv_scene s hInv hne
  have hfresh := engineInv_fresh s hInv.2.2.1
  obtain ⟨a, b, hab⟩ := exists_len2 sc.options hlen2
  have hopt : ∃ opt, pyGet? sc.options idx = some opt := by
    rcases hidx with rfl | rfl
    · exact ⟨a, by rw [hab]; rfl⟩
    · exact ⟨b, by rw [hab]; rfl⟩
  obtain ⟨opt, hopt⟩ := hopt
  refine ⟨_,
    make_choice_ending_eq api_client s idx sc opt hfresh hsc hopt (by omega),
    by simp [hcc], rfl, by simp, rfl, ?_, rfl, rfl⟩
  simp only []
  rw [dictGet?_append_right _ _ _ hfresh]
  simp [dictGet?]

/-- Witness for the amended C2 at a concrete input: the 20th choice on
`s_turn19` with no generator available. -/
theorem c2_witness :
    ∃ s2, make_choice none s_turn19 0 = .ok s2 ∧
      s2.choice_count = 20 ∧
      s2.game_ended = true ∧
      s2.story_data.length = s_turn19.story_data.length + 1 ∧
      s2.current_scene = sceneKey s_turn19.story_data.length ∧
      dictGet? s2.story_data s2.current_scene =
        some (ending_scene none s_turn19.player_name s_turn19.genre) ∧
      (ending_scene none s_turn19.player_name s_turn19.genre).options.map
          (fun o => o.text) =
        [generate_story_content none s_turn19.player_name s_turn19.genre
           "Play again" 50,
         generate_story_content none s_turn19.player_name s_turn19.genre
           "Download story" 50] ∧
      (ending_scene none s_turn19.player_name s_turn19.genre).text =
        generate_story_content none s_turn19.player_name s_turn19.genre
          ("Conclude the story with an epic ending where " ++
            s_turn19.player_name ++ " finishes their journey.") 200 :=
  c2_turn_limit_amended none s_turn19 0 (by decide) (by decide) rfl
    (Or.inl rfl)

/-- Counterexample for C3: `make_choice` has no ended-session check.  On
the ended session `s_ended` (20 choices made, `game_ended = true`),
`make_choice(0)` is not rejected: it succeeds and mutates the state,
taking `choice_count` from 20 to 21. -/
theorem c3_counterexample :
    EngineInv s_ended ∧ s_ended.game_ended = true ∧
    s_ended.choice_count = 20 ∧
    (okState? (make_choice none s_ended 0)).map
        (fun s2 => s2.choice_count) = some 21 :=
  ⟨by decide, rfl, rfl, by decide⟩

/-- C3 (amended): `make_choice` performs no ended-session check: called
on an ended session with a valid index it succeeds and mutates the
session — it appends a history entry, increments `choice_count` past
the turn limit, creates one further concluding scene and makes it
current (the UI merely stops offering choice buttons once
`game_ended` is set, replacing them with Play Again / download). -/
theorem c3_ended_not_rejected_amended (api_client : Option ApiClient)
    (s : SessionState) (idx : Int) (hInv : EngineInv s)
    (hne : s.story_data ≠ []) (hend : s.game_ended = true)
    (hidx : idx = 0 ∨ idx = 1) :
    ∃ s2, make_choice api_client s idx = .ok s2 ∧
      s2.choice_count = s.choice_count + 1 ∧
      s2.story_history.length = s.story_history.length + 1 ∧
      s2.story_data.length = s.story_data.length + 1 ∧
      s2.game_ended = true ∧
      s2.current_scene = sceneKey s.story_data.length := by
  have hcc : 20 ≤ s.choice_count := by
    have h2 := hInv.2.1
    rw [hend] at h2
    exact of_decide_eq_true h2.symm
  obtain ⟨sc, hsc, hlen2⟩ := engineInv_scene s hInv hne
  have hfresh := engineInv_fresh s hInv.2.2.1
  obtain ⟨a, b, hab⟩ := exists_len2 sc.options hlen2
  have hopt : ∃ opt, pyGet? sc.options idx = some opt := by
    rcases hidx with rfl | rfl
    · exact ⟨a, by rw [hab]; rfl⟩
    · exact ⟨b, by rw [hab]; rfl⟩
  obtain ⟨opt, hopt⟩ := hopt
  exact ⟨_,
    make_choice_ending_eq api_client s idx sc opt hfresh hsc hopt (by omega),
    rfl, by simp, by simp, rfl, rfl⟩

/-- Witness for the amended C3 at a concrete input: choosing option 0 on
the ended session `s_ended`. -/
theorem c3_witness :
    ∃ s2, make_choice none s_ended 0 = .ok s2 ∧
      s2.choice_count = s_ended.choice_count + 1 ∧
      s2.story_history.length = s_ended.story_history.length + 1 ∧
      s2.story_data.length = s_ended.story_data.length + 1 ∧
      s2.game_ended = true ∧
      s2.current_scene = sceneKey s_ended.story_data.length :=
  c3_ended_not_rejected_amended none s_ended 0 (by decide) (by decide) rfl
    (Or.inl rfl)
